import Mathlib

/-!
Verification development for the Transcripter multi-provider transcription
core (`transcripter/providers/*.py` and `transcripter/transcription.py`).

The Python code is shallowly embedded: the vendor network calls are
abstracted into explicit "vendor outcome" parameters (the data the remote
API would return, or the message of the exception the client library would
raise), the filesystem is an explicit partial map from paths to file
metadata, Python exceptions become an explicit `PyExc` sum threaded through
`Except`, and the lifecycle callbacks become explicit event lists.  Python
floats that only pass through the code (temperature, confidence, durations,
sizes and retry delays) are modelled as rationals.
-/

/-- `ProviderType` enum from `providers/base.py`. -/
inductive ProviderType where
  | groq
  | openai
  | google_cloud
  | assemblyai
  | deepgram
deriving DecidableEq, BEq, Repr

/-- The string value of each enum member (`ProviderType(str, Enum)`). -/
def ProviderType.value : ProviderType → String
  | .groq => "groq"
  | .openai => "openai"
  | .google_cloud => "google_cloud"
  | .assemblyai => "assemblyai"
  | .deepgram => "deepgram"

/-- `ProviderCapabilities` dataclass from `providers/base.py`. -/
structure ProviderCapabilities where
  supports_streaming : Bool := false
  supports_diarization : Bool := false
  supports_timestamps : Bool := false
  supports_language_detection : Bool := true
  max_file_size_mb : Nat := 25
  supported_formats : List String := ["wav", "mp3", "m4a", "flac", "ogg", "webm"]
  requires_file_upload : Bool := false
deriving DecidableEq, Repr

/-- One entry of the word-level timestamp lists the providers build
(Python `dict` with keys `text`, `start`, `end`, `confidence`). -/
structure WordEntry where
  text : String
  start_s : ℚ
  end_s : ℚ
  confidence : ℚ
deriving DecidableEq, Repr

/-- `TranscriptionResult` dataclass from `providers/base.py`.
`raw_response` (debug-only vendor payload) is not modelled. -/
structure TranscriptionResult where
  text : String
  provider : ProviderType
  model : String
  language : Option String := none
  duration_seconds : Option ℚ := none
  confidence : Option ℚ := none
  words : Option (List WordEntry) := none
deriving DecidableEq, Repr

/-- The Python exceptions the embedded code raises or catches:
the `TranscriptionError` family from `providers/base.py`
(`apiKeyError` and `rateLimitError` are its subclasses), the built-in
`FileNotFoundError` and `ValueError`, and a catch-all for any other
exception (`otherError`). -/
inductive PyExc where
  | transcriptionError (message : String) (provider : ProviderType) (recoverable : Bool)
  | apiKeyError (provider : ProviderType)
  | rateLimitError (provider : ProviderType) (retry_after : Option Nat)
  | fileNotFoundError (message : String)
  | valueError (message : String)
  | otherError (message : String)
deriving DecidableEq, Repr

/-- Whether the exception is an instance of the `TranscriptionError` class
(`APIKeyError` and `RateLimitError` are subclasses). -/
def PyExc.is_transcription_error : PyExc → Bool
  | .transcriptionError _ _ _ => true
  | .apiKeyError _ => true
  | .rateLimitError _ _ => true
  | _ => false

/-- The `recoverable` attribute of the `TranscriptionError` family
(only ever read on that family; `APIKeyError` passes `recoverable=False`,
`RateLimitError` passes `recoverable=True`). -/
def PyExc.recoverable : PyExc → Bool
  | .transcriptionError _ _ r => r
  | .apiKeyError _ => false
  | .rateLimitError _ _ => true
  | _ => true

/-- Python `str(e)` for each modelled exception, with the messages the
constructors in `providers/base.py` build.  `RateLimitError` appends the
retry-after clause only when `retry_after` is truthy (not `None`, not 0). -/
def PyExc.py_str : PyExc → String
  | .transcriptionError m _ _ => m
  | .apiKeyError p => "Invalid or missing API key for " ++ p.value
  | .rateLimitError p ra =>
      match ra with
      | none => "Rate limit exceeded for " ++ p.value
      | some n =>
          if n = 0 then "Rate limit exceeded for " ++ p.value
          else "Rate limit exceeded for " ++ p.value ++ " (retry after " ++ toString n ++ "s)"
  | .fileNotFoundError m => m
  | .valueError m => m
  | .otherError m => m

/-- Metadata of a file on disk; `size_bytes` models `os.path.getsize`. -/
structure FileInfo where
  size_bytes : Nat
deriving DecidableEq, Repr

/-- The filesystem as seen by `os.path.exists` / `os.path.getsize`:
a partial map from paths to file metadata. -/
def FileSystem := String → Option FileInfo

/-- Python `str.lower()` (ASCII case folding; all strings the code lowers
are ASCII vendor messages and extensions). -/
def pyLower (s : String) : String := ⟨s.data.map Char.toLower⟩

/-- Python `str.upper()` (ASCII case folding). -/
def pyUpper (s : String) : String := ⟨s.data.map Char.toUpper⟩

/-- Python `pat in s` substring test. -/
def strContains (s pat : String) : Bool := decide (pat.data <:+: s.data)

/-- Python `sep.join(parts)`. -/
def pyJoin (sep : String) : List String → String
  | [] => ""
  | [s] => s
  | s :: t :: rest => s ++ sep ++ pyJoin sep (t :: rest)

/-- Python `x or default` for an optional string (`None` and `""` are
falsy); used for the per-provider `model = model or "..."` defaulting. -/
def pyStrOr (x : Option String) (default : String) : String :=
  match x with
  | none => default
  | some s => if s = "" then default else s

/-- Truthiness of an optional string (`if language:`). -/
def pyStrTruthy (x : Option String) : Bool :=
  match x with
  | none => false
  | some s => s ≠ ""

/-- The characters of the path after its last `/` (the basename
`os.path.splitext` effectively works on). -/
def after_last_slash (l : List Char) : List Char :=
  l.foldl (fun acc ch => if ch = '/' then [] else acc ++ [ch]) []

/-- Split a character list at its last `.`: returns the characters before
and after it, or `none` when there is no dot. -/
def split_last_dot : List Char → Option (List Char × List Char)
  | [] => none
  | ch :: rest =>
      match split_last_dot rest with
      | some (b, a) => some (ch :: b, a)
      | none => if ch = '.' then some ([], rest) else none

/-- `os.path.splitext(file_path)[1].lower().lstrip(".")` from
`TranscriptionProvider._validate_file`: the extension starts at the last
dot of the basename unless every character before that dot is itself a dot
(CPython's `splitext` rule); the leading dot is then stripped and the
result lowercased. -/
def file_ext (path : String) : String :=
  let base := after_last_slash path.data
  match split_last_dot base with
  | some (before, after) =>
      if before.any (fun ch => ch ≠ '.') then
        ⟨(('.' :: after).map Char.toLower).dropWhile (fun ch => ch = '.')⟩
      else ""
  | none => ""

/-- `TranscriptionProvider._validate_file` from `providers/base.py`:
missing file raises `FileNotFoundError`, unsupported extension and
oversized file raise `ValueError`, otherwise `True` is returned.
(The Python size message renders the megabyte count with one decimal via
float formatting; the rational is rendered directly here — no claim
depends on that message's text.) -/
def validate_file (caps : ProviderCapabilities) (display_name : String)
    (fs : FileSystem) (file_path : String) : Except PyExc Bool :=
  match fs file_path with
  | none => .error (.fileNotFoundError ("Audio file not found: " ++ file_path))
  | some info =>
      let ext := file_ext file_path
      if ¬ caps.supported_formats.contains ext then
        .error (.valueError ("Unsupported audio format: " ++ ext ++
          ". Supported formats: " ++ pyJoin ", " caps.supported_formats))
      else if (info.size_bytes : ℚ) / (1024 * 1024) > (caps.max_file_size_mb : ℚ) then
        .error (.valueError ("File size (" ++ toString ((info.size_bytes : ℚ) / (1024 * 1024)) ++
          "MB) exceeds maximum (" ++ toString caps.max_file_size_mb ++ "MB) for " ++ display_name))
      else .ok true

/-- `GroqProvider.capabilities` from `providers/groq.py`. -/
def groq_capabilities : ProviderCapabilities :=
  { supports_streaming := false
    supports_diarization := false
    supports_timestamps := true
    supports_language_detection := true
    max_file_size_mb := 25
    supported_formats := ["wav", "mp3", "m4a", "flac", "ogg", "webm", "mp4", "mpeg", "mpga"] }

/-- `OpenAIProvider.capabilities` from `providers/openai_provider.py`. -/
def openai_capabilities : ProviderCapabilities :=
  { supports_streaming := false
    supports_diarization := false
    supports_timestamps := true
    supports_language_detection := true
    max_file_size_mb := 25
    supported_formats := ["wav", "mp3", "m4a", "flac", "ogg", "webm", "mp4", "mpeg", "mpga"] }

/-- `GoogleCloudProvider.capabilities` from `providers/google_cloud.py`. -/
def google_cloud_capabilities : ProviderCapabilities :=
  { supports_streaming := true
    supports_diarization := true
    supports_timestamps := true
    supports_language_detection := false
    max_file_size_mb := 480
    supported_formats := ["wav", "flac", "mp3", "ogg", "webm"] }

/-- `AssemblyAIProvider.capabilities` from `providers/assemblyai.py`. -/
def assemblyai_capabilities : ProviderCapabilities :=
  { supports_streaming := true
    supports_diarization := true
    supports_timestamps := true
    supports_language_detection := true
    max_file_size_mb := 2200
    supported_formats := ["wav", "mp3", "m4a", "flac", "ogg", "webm", "mp4", "mpeg", "mpga", "aac"]
    requires_file_upload := true }

/-- `DeepgramProvider.capabilities` from `providers/deepgram.py`. -/
def deepgram_capabilities : ProviderCapabilities :=
  { supports_streaming := true
    supports_diarization := true
    supports_timestamps := true
    supports_language_detection := true
    max_file_size_mb := 2000
    supported_formats := ["wav", "mp3", "m4a", "flac", "ogg", "webm", "mp4", "mpeg", "mpga", "aac"] }

/-- The fixed two-letter language lookup table in
`GoogleCloudProvider.transcribe_file` (`providers/google_cloud.py`,
lines 127-137). -/
def google_language_map : List (String × String) :=
  [("en", "en-US"), ("pt", "pt-BR"), ("es", "es-ES"), ("fr", "fr-FR"),
   ("de", "de-DE"), ("it", "it-IT"), ("ja", "ja-JP"), ("ko", "ko-KR"),
   ("zh", "zh-CN")]

/-- The language normalization of `GoogleCloudProvider.transcribe_file`
(lines 121-138): a falsy language becomes `"en-US"`; a two-letter code is
remapped through the fixed table, defaulting to `code ++ "-" ++ CODE`. -/
def google_cloud_map_language (language : Option String) : String :=
  let language :=
    match language with
    | none => "en-US"
    | some s => if s = "" then "en-US" else s
  if language.length = 2 then
    (google_language_map.lookup language).getD (language ++ "-" ++ pyUpper language)
  else language

/-- Lifecycle notifications a provider fires during `transcribe_file`
(`_notify_started` / `_notify_completed` / `_notify_failed`). -/
inductive ProvEvent where
  | started
  | completed (result : TranscriptionResult)
  | failed (message : String)
deriving DecidableEq, Repr

/-- The argument bag of a `transcribe_file` call.  Provider-specific
`**kwargs` (diarization flags and the like) only pass through unchanged
and are not modelled. -/
structure PCall where
  file_path : String
  model : Option String := none
  language : Option String := none
  prompt : Option String := none
  temperature : ℚ := 0
  response_format : String := "text"
deriving DecidableEq, Repr

/-- Result of one provider `transcribe_file` call: the returned value or
raised exception, together with the lifecycle notifications fired. -/
abbrev Outcome := Except PyExc (Option TranscriptionResult) × List ProvEvent

/-- Outcome of the remote vendor call for the Groq and OpenAI providers:
either the transcript text extracted from the response, or the message of
the exception the client library raised. -/
inductive VendorOutcome where
  | success (text : String)
  | vendorRaise (message : String)
deriving DecidableEq, Repr

/-- `GroqProvider.transcribe_file` from `providers/groq.py`: validation
failures are swallowed into a `None` return after a failed-notification;
vendor exceptions are classified by message substrings into
`APIKeyError` / `RateLimitError` / generic `TranscriptionError`. -/
def groq_transcribe_file (fs : FileSystem) (vendor : VendorOutcome) (c : PCall) : Outcome :=
  match validate_file groq_capabilities "Groq" fs c.file_path with
  | .error e => (.ok none, [.failed e.py_str])
  | .ok _ =>
      let model := pyStrOr c.model "whisper-large-v3-turbo"
      match vendor with
      | .success text =>
          let r : TranscriptionResult :=
            { text := text, provider := .groq, model := model, language := c.language }
          (.ok (some r), [.started, .completed r])
      | .vendorRaise msg =>
          let error_str := pyLower msg
          let error_msg := "Groq API error: " ++ msg
          if strContains error_str "invalid api key" || strContains error_str "authentication" then
            (.error (.apiKeyError .groq), [.started, .failed error_msg])
          else if strContains error_str "rate limit" then
            (.error (.rateLimitError .groq none), [.started, .failed error_msg])
          else
            (.error (.transcriptionError error_msg .groq true), [.started, .failed error_msg])

/-- `OpenAIProvider.transcribe_file` from `providers/openai_provider.py`
(same shape as Groq with `"401"`/`"429"` added to the substring
classification and default model `whisper-1`). -/
def openai_transcribe_file (fs : FileSystem) (vendor : VendorOutcome) (c : PCall) : Outcome :=
  match validate_file openai_capabilities "OpenAI" fs c.file_path with
  | .error e => (.ok none, [.failed e.py_str])
  | .ok _ =>
      let model := pyStrOr c.model "whisper-1"
      match vendor with
      | .success text =>
          let r : TranscriptionResult :=
            { text := text, provider := .openai, model := model, language := c.language }
          (.ok (some r), [.started, .completed r])
      | .vendorRaise msg =>
          let error_str := pyLower msg
          let error_msg := "OpenAI API error: " ++ msg
          if strContains error_str "invalid api key" || strContains error_str "authentication" ||
              strContains error_str "401" then
            (.error (.apiKeyError .openai), [.started, .failed error_msg])
          else if strContains error_str "rate limit" || strContains error_str "429" then
            (.error (.rateLimitError .openai none), [.started, .failed error_msg])
          else
            (.error (.transcriptionError error_msg .openai true), [.started, .failed error_msg])

/-- One word of a Google Cloud alternative (`word_info`), with the
start/end times already converted by `total_seconds()`. -/
structure GWord where
  word : String
  start_seconds : ℚ
  end_seconds : ℚ
deriving DecidableEq, Repr

/-- One alternative of a Google Cloud recognition result. -/
structure GAlt where
  transcript : String
  confidence : ℚ
  words : List GWord
deriving DecidableEq, Repr

/-- One entry of `response.results` from Google Cloud. -/
structure GResult where
  alternatives : List GAlt
deriving DecidableEq, Repr

/-- Outcome of the Google Cloud vendor call (`recognize` or the
long-running variant — both paths return the same response shape). -/
inductive GVendorOutcome where
  | response (results : List GResult)
  | vendorRaise (message : String)
deriving DecidableEq, Repr

/-- `GoogleCloudProvider.transcribe_file` from
`providers/google_cloud.py`: validation failures return `None`; an empty
`response.results` fires a failed-notification but returns a
`TranscriptionResult` with empty text; otherwise the first alternative of
each result is combined (texts joined with spaces, confidences averaged,
word timestamps collected); vendor exceptions are classified into
`APIKeyError` (substrings `permission denied` / `invalid` / `credentials`)
or a generic `TranscriptionError` — this provider never raises
`RateLimitError`. -/
def google_cloud_transcribe_file (fs : FileSystem) (vendor : GVendorOutcome) (c : PCall) :
    Outcome :=
  match validate_file google_cloud_capabilities "Google Cloud" fs c.file_path with
  | .error e => (.ok none, [.failed e.py_str])
  | .ok _ =>
      let language := google_cloud_map_language c.language
      let model := pyStrOr c.model "chirp_2"
      match vendor with
      | .vendorRaise msg =>
          let error_str := pyLower msg
          let error_msg := "Google Cloud API error: " ++ msg
          if strContains error_str "permission denied" || strContains error_str "invalid" ||
              strContains error_str "credentials" then
            (.error (.apiKeyError .google_cloud), [.started, .failed error_msg])
          else
            (.error (.transcriptionError error_msg .google_cloud true), [.started, .failed error_msg])
      | .response results =>
          if results = [] then
            let error_msg := "Google Cloud returned empty results"
            (.ok (some { text := "", provider := .google_cloud, model := model,
                         language := some language }),
             [.started, .failed error_msg])
          else
            let picked := results.filterMap (fun r => r.alternatives.head?)
            let texts := picked.map GAlt.transcript
            let total_confidence := (picked.map GAlt.confidence).sum
            let confidence_count := picked.length
            let words := (picked.map (fun alt => alt.words.map (fun w =>
              ({ text := w.word, start_s := w.start_seconds, end_s := w.end_seconds,
                 confidence := alt.confidence } : WordEntry)))).flatten
            let text := pyJoin " " texts
            let avg_confidence : Option ℚ :=
              if confidence_count > 0 then some (total_confidence / confidence_count) else none
            let r : TranscriptionResult :=
              { text := text, provider := .google_cloud, model := model,
                language := some language, confidence := avg_confidence,
                words := if words = [] then none else some words }
            (.ok (some r), [.started, .completed r])

/-- One entry of `transcript.words` from AssemblyAI (times in
milliseconds). -/
structure AaiWord where
  text : String
  start_ms : ℚ
  end_ms : ℚ
  confidence : ℚ
deriving DecidableEq, Repr

/-- Outcome of the AssemblyAI vendor call: either the polled transcript
object (whose status may be the error status), or a raised exception's
message.  A `transcript.words` of `None` is folded into the empty list
(both are falsy at the `if transcript.words:` check). -/
inductive AaiVendorOutcome where
  | transcript (is_error : Bool) (error : String) (text : String)
      (language_code : Option String) (audio_duration : Option ℚ)
      (confidence : Option ℚ) (words : List AaiWord)
  | vendorRaise (message : String)
deriving DecidableEq, Repr

/-- The `except Exception` classification block of
`AssemblyAIProvider.transcribe_file` (lines 144-156): returns the raised
exception and the message passed to the failed-notification. -/
def assemblyai_classify (msg : String) : PyExc × String :=
  let error_str := pyLower msg
  let error_msg := "AssemblyAI API error: " ++ msg
  if strContains error_str "invalid api key" || strContains error_str "authentication" ||
      strContains error_str "401" then
    (.apiKeyError .assemblyai, error_msg)
  else if strContains error_str "rate limit" || strContains error_str "429" then
    (.rateLimitError .assemblyai none, error_msg)
  else
    (.transcriptionError error_msg .assemblyai true, error_msg)

/-- `AssemblyAIProvider.transcribe_file` from `providers/assemblyai.py`.
When the polled transcript has the error status, the code fires a
failed-notification and raises a `TranscriptionError` inside its own
`try`, so that error is then re-classified (and re-notified) by the same
function's `except` block. -/
def assemblyai_transcribe_file (fs : FileSystem) (vendor : AaiVendorOutcome) (c : PCall) :
    Outcome :=
  match validate_file assemblyai_capabilities "AssemblyAI" fs c.file_path with
  | .error e => (.ok none, [.failed e.py_str])
  | .ok _ =>
      let model := pyStrOr c.model "best"
      match vendor with
      | .vendorRaise msg =>
          let (exc, error_msg) := assemblyai_classify msg
          (.error exc, [.started, .failed error_msg])
      | .transcript is_error err text language_code audio_duration confidence words =>
          if is_error then
            let inner_msg := "AssemblyAI error: " ++ err
            let (exc, error_msg) := assemblyai_classify inner_msg
            (.error exc, [.started, .failed inner_msg, .failed error_msg])
          else
            let wordsOut : Option (List WordEntry) :=
              if words = [] then none
              else some (words.map (fun w =>
                { text := w.text, start_s := w.start_ms / 1000, end_s := w.end_ms / 1000,
                  confidence := w.confidence }))
            let r : TranscriptionResult :=
              { text := text, provider := .assemblyai, model := model,
                language := language_code, duration_seconds := audio_duration,
                confidence := confidence, words := wordsOut }
            (.ok (some r), [.started, .completed r])

/-- One word of a Deepgram alternative (times already in seconds). -/
structure DgWord where
  word : String
  start_s : ℚ
  end_s : ℚ
  confidence : ℚ
deriving DecidableEq, Repr

/-- One alternative of a Deepgram channel. -/
structure DgAlt where
  transcript : String
  confidence : ℚ
  words : List DgWord
deriving DecidableEq, Repr

/-- One channel of a Deepgram response.  `detected_language` is
`some v` when the attribute is present with value `v` (`hasattr` true) and
`none` when absent; an attribute present with value `None` is modelled as
`some none`. -/
structure DgChannel where
  alternatives : List DgAlt
  detected_language : Option (Option String)
deriving DecidableEq, Repr

/-- Outcome of the Deepgram vendor call.  A falsy `response.results` is
folded into an empty channel list (both fail the
`if not results or not results.channels:` check identically);
`metadata` is `none` when `results.metadata` is falsy. -/
inductive DgVendorOutcome where
  | response (channels : List DgChannel) (metadata_duration : Option (Option ℚ))
  | vendorRaise (message : String)
deriving DecidableEq, Repr

/-- The `except Exception` classification block of
`DeepgramProvider.transcribe_file` (lines 161-173). -/
def deepgram_classify (msg : String) : PyExc × String :=
  let error_str := pyLower msg
  let error_msg := "Deepgram API error: " ++ msg
  if strContains error_str "invalid api key" || strContains error_str "authentication" ||
      strContains error_str "401" || strContains error_str "unauthorized" then
    (.apiKeyError .deepgram, error_msg)
  else if strContains error_str "rate limit" || strContains error_str "429" then
    (.rateLimitError .deepgram none, error_msg)
  else
    (.transcriptionError error_msg .deepgram true, error_msg)

/-- `DeepgramProvider.transcribe_file` from `providers/deepgram.py`.
Empty results/channels and empty alternatives each fire a
failed-notification and raise a `TranscriptionError` inside the `try`,
which the function's own `except` block then re-classifies. -/
def deepgram_transcribe_file (fs : FileSystem) (vendor : DgVendorOutcome) (c : PCall) :
    Outcome :=
  match validate_file deepgram_capabilities "Deepgram" fs c.file_path with
  | .error e => (.ok none, [.failed e.py_str])
  | .ok _ =>
      let model := pyStrOr c.model "nova-2"
      match vendor with
      | .vendorRaise msg =>
          let (exc, error_msg) := deepgram_classify msg
          (.error exc, [.started, .failed error_msg])
      | .response channels metadata_duration =>
          match channels with
          | [] =>
              let inner_msg := "Deepgram returned empty results"
              let (exc, error_msg) := deepgram_classify inner_msg
              (.error exc, [.started, .failed inner_msg, .failed error_msg])
          | channel :: _ =>
              match channel.alternatives with
              | [] =>
                  let inner_msg := "Deepgram returned no alternatives"
                  let (exc, error_msg) := deepgram_classify inner_msg
                  (.error exc, [.started, .failed inner_msg, .failed error_msg])
              | alternative :: _ =>
                  let text := alternative.transcript
                  let words : Option (List WordEntry) :=
                    if alternative.words = [] then none
                    else some (alternative.words.map (fun w =>
                      { text := w.word, start_s := w.start_s, end_s := w.end_s,
                        confidence := w.confidence }))
                  let detected_language : Option String :=
                    match channel.detected_language with
                    | some v => v
                    | none => if pyStrTruthy c.language then c.language else none
                  let duration : Option ℚ :=
                    match metadata_duration with
                    | some d => d
                    | none => none
                  let r : TranscriptionResult :=
                    { text := text, provider := .deepgram, model := model,
                      language := detected_language, duration_seconds := duration,
                      confidence := some alternative.confidence, words := words }
                  (.ok (some r), [.started, .completed r])

/-- Tag for each of the five registered provider classes
(`ProviderRegistry._providers` values). -/
inductive ProviderClassTag where
  | groq_cls
  | openai_cls
  | google_cloud_cls
  | assemblyai_cls
  | deepgram_cls
deriving DecidableEq, Repr

/-- `display_name` of each provider class. -/
def ProviderClassTag.display_name : ProviderClassTag → String
  | .groq_cls => "Groq"
  | .openai_cls => "OpenAI"
  | .google_cloud_cls => "Google Cloud"
  | .assemblyai_cls => "AssemblyAI"
  | .deepgram_cls => "Deepgram"

/-- A constructed provider object: its class and the credential it was
constructed with. -/
structure ProviderInstance where
  cls : ProviderClassTag
  api_key : String
deriving DecidableEq, Repr

/-- `ProviderRegistry._providers`: a finite map from provider type to
registered class, modelled as an association list in registration order
(keys are unique — each `@ProviderRegistry.register` decorator runs once
at import time). -/
abbrev Registry := List (ProviderType × ProviderClassTag)

/-- `ProviderRegistry.create_provider` from `providers/factory.py`
followed by `provider_class(api_key)`: an unregistered type raises a
`ValueError` listing all registered identities; construction raises the
base-class `ValueError` on an empty credential (`if not api_key:` in
`TranscriptionProvider.__init__`).  SDK availability (`ImportError` from
`_initialize_client`) is environment state outside this model. -/
def create_provider (reg : Registry) (provider_type : ProviderType) (api_key : String) :
    Except PyExc ProviderInstance :=
  match List.lookup provider_type reg with
  | none =>
      .error (.valueError ("Provider \x27" ++ provider_type.value ++
        "\x27 is not registered. Available providers: " ++
        pyJoin ", " (reg.map (fun q => q.1.value))))
  | some cls =>
      if api_key = "" then
        .error (.valueError ("API key is required for " ++ cls.display_name))
      else .ok { cls := cls, api_key := api_key }

/-- The registry as populated at import time by `providers/__init__.py`
(import order: groq, openai, assemblyai, deepgram, google_cloud). -/
def default_registry : Registry :=
  [(.groq, .groq_cls), (.openai, .openai_cls), (.assemblyai, .assemblyai_cls),
   (.deepgram, .deepgram_cls), (.google_cloud, .google_cloud_cls)]

/-- Notifications observed by the external caller through the facade's
`on_transcription_started` / `on_transcription_completed` /
`on_transcription_failed` callbacks (the completed callback receives the
text, per `_setup_provider_callbacks`). -/
inductive ExtEvent where
  | started
  | completed (text : String)
  | failed (message : String)
deriving DecidableEq, Repr

/-- The mutable session state of `TranscriptionService`
(`last_transcription`, `last_result`, `last_error`). -/
structure FacadeState where
  last_transcription : Option String := none
  last_result : Option TranscriptionResult := none
  last_error : Option String := none
deriving DecidableEq, Repr

/-- Effect of one provider notification as wired by
`TranscriptionService._setup_provider_callbacks`: the completed callback
records the result and text and clears `last_error` before forwarding the
text; started/failed forward to the external callbacks unchanged. -/
def apply_event (acc : FacadeState × List ExtEvent) (ev : ProvEvent) :
    FacadeState × List ExtEvent :=
  match ev with
  | .started => (acc.1, acc.2 ++ [.started])
  | .completed r =>
      ({ last_transcription := some r.text, last_result := some r, last_error := none },
       acc.2 ++ [.completed r.text])
  | .failed m => (acc.1, acc.2 ++ [.failed m])

/-- Fold the notifications a provider fired during one call over the
facade state. -/
def apply_events (st : FacadeState) (evs : List ProvEvent) : FacadeState × List ExtEvent :=
  evs.foldl apply_event (st, [])

instance {ε α : Type} [DecidableEq ε] [DecidableEq α] : DecidableEq (Except ε α) := fun a b =>
  match a, b with
  | .ok x, .ok y =>
      if h : x = y then .isTrue (by rw [h]) else .isFalse (by intro hh; cases hh; exact h rfl)
  | .error x, .error y =>
      if h : x = y then .isTrue (by rw [h]) else .isFalse (by intro hh; cases hh; exact h rfl)
  | .ok _, .error _ => .isFalse (by intro hh; cases hh)
  | .error _, .ok _ => .isFalse (by intro hh; cases hh)

/-- Everything observable about one `TranscriptionService.transcribe_file`
call: the returned value (or escaped exception), the resulting session
state, the external notifications, how many times the primary and the
fallback provider were invoked, and the argument bag the fallback was
invoked with (if it was). -/
structure SvcOut where
  ret : Except PyExc (Option String)
  state : FacadeState
  events : List ExtEvent
  primary_calls : Nat
  fallback_calls : Nat
  fb_call : Option PCall
deriving DecidableEq, Repr

/-- `TranscriptionService._try_fallback` (transcription.py lines
155-188): calls the fallback provider, returns its text on a truthy
result, and swallows any exception into `last_error` plus a
failed-notification and a `None` return. -/
def try_fallback (fb : PCall → Outcome) (c : PCall) (st : FacadeState)
    (evs0 : List ExtEvent) : Except PyExc (Option String) × FacadeState × List ExtEvent :=
  let (res, pevs) := fb c
  let (st1, evs1) := apply_events st pevs
  match res with
  | .ok (some r) => (.ok (some r.text), st1, evs0 ++ evs1)
  | .ok none => (.ok none, st1, evs0 ++ evs1)
  | .error e =>
      (.ok none, { st1 with last_error := some e.py_str },
       evs0 ++ evs1 ++ [.failed e.py_str])

/-- `TranscriptionService.transcribe_file` (transcription.py lines
87-153).  The provider behaviours are the call's parameters: `primary` is
the primary provider's `transcribe_file`, `fallback` the optional fallback
provider's.  A `TranscriptionError`-family exception records `last_error`
and either tries the fallback (when one is configured and the error is
recoverable — with `model` and `response_format` NOT forwarded, so the
fallback gets their defaults) or fires the failed callback; any other
exception records `last_error` and fires the failed callback; both paths
return `None`. -/
def service_transcribe_file (primary : PCall → Outcome)
    (fallback : Option (PCall → Outcome)) (st0 : FacadeState) (c : PCall) : SvcOut :=
  let (res, pevs) := primary c
  let (st1, evs1) := apply_events st0 pevs
  match res with
  | .ok (some r) =>
      { ret := .ok (some r.text), state := st1, events := evs1,
        primary_calls := 1, fallback_calls := 0, fb_call := none }
  | .ok none =>
      { ret := .ok none, state := st1, events := evs1,
        primary_calls := 1, fallback_calls := 0, fb_call := none }
  | .error e =>
      if e.is_transcription_error then
        let st2 := { st1 with last_error := some e.py_str }
        match fallback with
        | some fb =>
            if e.recoverable then
              let fc : PCall := { c with model := none, response_format := "text" }
              let (ret, st3, evs2) := try_fallback fb fc st2 evs1
              { ret := ret, state := st3, events := evs2,
                primary_calls := 1, fallback_calls := 1, fb_call := some fc }
            else
              { ret := .ok none, state := st2, events := evs1 ++ [.failed e.py_str],
                primary_calls := 1, fallback_calls := 0, fb_call := none }
        | none =>
            { ret := .ok none, state := st2, events := evs1 ++ [.failed e.py_str],
              primary_calls := 1, fallback_calls := 0, fb_call := none }
      else
        { ret := .ok none, state := { st1 with last_error := some e.py_str },
          events := evs1 ++ [.failed e.py_str],
          primary_calls := 1, fallback_calls := 0, fb_call := none }

/-- Everything observable about one
`TranscriptionService.transcribe_file_with_retry` call, including the
sequence of `time.sleep` durations in seconds. -/
structure RetryOut where
  ret : Except PyExc (Option String)
  state : FacadeState
  sleeps : List ℚ
  events : List ExtEvent
  primary_calls : Nat
  fallback_calls : Nat
deriving DecidableEq, Repr

/-- The `for attempt in range(max_retries)` loop of
`transcribe_file_with_retry` (transcription.py lines 219-250), with
`remaining = max_retries - attempt` as the structural fuel.  A truthy
result returns it; otherwise a recorded `last_error` containing
`"rate limit"` (case-insensitively) sleeps `retry_delay * (attempt + 1)`
and continues when more attempts remain (at the final attempt the loop
simply ends); any other recorded outcome breaks; the dead `except` branch
around the inner call (which never raises) sleeps and continues
likewise. -/
def retry_aux (primary : PCall → Outcome) (fallback : Option (PCall → Outcome))
    (c : PCall) (max_retries : Nat) (retry_delay : ℚ) :
    Nat → Nat → FacadeState → List ℚ → List ExtEvent → Nat → Nat → RetryOut
  | 0, _, st, sleeps, evs, pc, fc =>
      { ret := .ok none, state := st, sleeps := sleeps, events := evs,
        primary_calls := pc, fallback_calls := fc }
  | remaining + 1, attempt, st, sleeps, evs, pc, fc =>
      let o := service_transcribe_file primary fallback st c
      let st1 := o.state
      let evs1 := evs ++ o.events
      let pc1 := pc + o.primary_calls
      let fc1 := fc + o.fallback_calls
      match o.ret with
      | .ok r =>
          if r ≠ none ∧ r ≠ some "" then
            { ret := .ok r, state := st1, sleeps := sleeps, events := evs1,
              primary_calls := pc1, fallback_calls := fc1 }
          else if (match st1.last_error with
                   | some m => strContains (pyLower m) "rate limit"
                   | none => false) then
            if attempt + 1 < max_retries then
              retry_aux primary fallback c max_retries retry_delay remaining (attempt + 1)
                st1 (sleeps ++ [retry_delay * ((attempt : ℚ) + 1)]) evs1 pc1 fc1
            else
              retry_aux primary fallback c max_retries retry_delay remaining (attempt + 1)
                st1 sleeps evs1 pc1 fc1
          else
            { ret := .ok none, state := st1, sleeps := sleeps, events := evs1,
              primary_calls := pc1, fallback_calls := fc1 }
      | .error _ =>
          if attempt + 1 < max_retries then
            retry_aux primary fallback c max_retries retry_delay remaining (attempt + 1)
              st1 (sleeps ++ [retry_delay * ((attempt : ℚ) + 1)]) evs1 pc1 fc1
          else
            { ret := .ok none, state := st1, sleeps := sleeps, events := evs1,
              primary_calls := pc1, fallback_calls := fc1 }

/-- `TranscriptionService.transcribe_file_with_retry` (transcription.py
lines 190-250). -/
def transcribe_file_with_retry (primary : PCall → Outcome)
    (fallback : Option (PCall → Outcome)) (st0 : FacadeState) (c : PCall)
    (max_retries : Nat) (retry_delay : ℚ) : RetryOut :=
  retry_aux primary fallback c max_retries retry_delay max_retries 0 st0 [] [] 0 0

/-- An empty filesystem: no path exists. -/
def fs_empty : FileSystem := fun _ => none

/-- A filesystem holding a single small `a.wav` file. -/
def fs_one : FileSystem := fun p => if p = "a.wav" then some { size_bytes := 1000 } else none

/-- A call for the existing `a.wav`. -/
def call_wav : PCall := { file_path := "a.wav" }

/-- A call for a path that exists on no filesystem used here. -/
def call_missing : PCall := { file_path := "missing.wav" }

/-- A fallback success result with text `"hello"`. -/
def hello_result : TranscriptionResult :=
  { text := "hello", provider := .openai, model := "whisper-1" }

/-- A fallback provider behaviour that always succeeds with `"hello"`. -/
def ok_fallback : PCall → Outcome := fun _ =>
  (.ok (some hello_result), [.started, .completed hello_result])

/-- The model id recorded in a provider call's returned
`TranscriptionResult`, when the call returned one. -/
def result_model (o : Outcome) : Option String :=
  match o.1 with
  | .ok (some r) => some r.model
  | _ => none

/-- A well-formed provider behaviour fires a completed notification only
for the result it then returns — every real provider calls
`_notify_completed(result)` immediately before `return result`. -/
def WFBehavior (b : PCall → Outcome) : Prop :=
  ∀ (c : PCall) (r : TranscriptionResult),
    ProvEvent.completed r ∈ (b c).2 → (b c).1 = .ok (some r)

theorem string_data_append (s t : String) : (s ++ t).data = s.data ++ t.data := by
  cases s; cases t; rfl

theorem py_lower_append (s t : String) : pyLower (s ++ t) = pyLower s ++ pyLower t := by
  cases s with
  | mk a =>
    cases t with
    | mk b =>
      show String.mk (((String.mk a ++ String.mk b).data).map Char.toLower) = _
      rw [string_data_append]
      show String.mk ((a ++ b).map Char.toLower) = String.mk (a.map Char.toLower ++ b.map Char.toLower)
      rw [List.map_append]

theorem strContains_append_left (x y pat : String) (h : strContains x pat = true) :
    strContains (x ++ y) pat = true := by
  unfold strContains at h ⊢
  rw [decide_eq_true_iff] at h ⊢
  rw [string_data_append]
  rcases h with ⟨s, t, hst⟩
  exact ⟨s, t ++ y.data, by rw [← hst]; simp⟩

/-- The message of every `RateLimitError` contains `"rate limit"` after
lowercasing, whatever the provider and retry-after are. -/
theorem rate_limit_msg_contains (p : ProviderType) (ra : Option Nat) :
    strContains (pyLower (PyExc.rateLimitError p ra).py_str) "rate limit" = true := by
  have base : strContains (pyLower "Rate limit exceeded for ") "rate limit" = true := by decide
  cases ra with
  | none =>
      show strContains (pyLower ("Rate limit exceeded for " ++ p.value)) _ = true
      rw [py_lower_append]
      exact strContains_append_left _ _ _ base
  | some n =>
      by_cases h : n = 0
      · simp only [PyExc.py_str, h, if_true, ite_true]
        rw [py_lower_append]
        exact strContains_append_left _ _ _ base
      · simp only [PyExc.py_str, if_neg h]
        rw [py_lower_append, py_lower_append, py_lower_append, py_lower_append]
        exact strContains_append_left _ _ _
          (strContains_append_left _ _ _
            (strContains_append_left _ _ _ (strContains_append_left _ _ _ base)))

/-- Folding provider notifications that include no completed notification
leaves the facade state untouched. -/
theorem foldl_apply_event_no_completed (evs : List ProvEvent)
    (h : ∀ r, ProvEvent.completed r ∉ evs) :
    ∀ (st : FacadeState) (acc : List ExtEvent), (evs.foldl apply_event (st, acc)).1 = st := by
  induction evs with
  | nil => intro st acc; rfl
  | cons e rest ih =>
      intro st acc
      have hrest : ∀ r, ProvEvent.completed r ∉ rest := by
        intro r hr; exact h r (List.mem_cons_of_mem _ hr)
      cases e with
      | started => exact ih hrest st _
      | completed r => exact absurd (List.mem_cons_self _ _) (h r)
      | failed m => exact ih hrest st _

theorem apply_events_no_completed (st : FacadeState) (evs : List ProvEvent)
    (h : ∀ r, ProvEvent.completed r ∉ evs) : (apply_events st evs).1 = st :=
  foldl_apply_event_no_completed evs h st []

/-- A primary provider call that swallows its failure into
`(None, failed-notification)` leaves the whole facade call a no-op apart
from that notification. -/
theorem svc_reject_frame (primary : PCall → Outcome) (fb : Option (PCall → Outcome))
    (st : FacadeState) (c : PCall) (m : String)
    (h : primary c = (.ok none, [.failed m])) :
    service_transcribe_file primary fb st c =
      { ret := .ok none, state := st, events := [.failed m],
        primary_calls := 1, fallback_calls := 0, fb_call := none } := by
  simp [service_transcribe_file, h, apply_events, apply_event]

/-- C1 counterexample: at the concrete input `missing.wav` on an empty
filesystem, `GroqProvider.transcribe_file` does NOT raise a
file-not-found error: it returns `None` after a failed-notification, so
nothing propagates to the caller — contradicting the claim that the
error "propagates directly to the caller". -/
theorem groq_file_not_found_not_raised :
    groq_transcribe_file fs_empty (.success "hi") call_missing =
      (.ok none, [.failed "Audio file not found: missing.wav"]) ∧
    ∀ e : PyExc, (groq_transcribe_file fs_empty (.success "hi") call_missing).1 ≠ .error e := by
  refine ⟨by decide, ?_⟩
  intro e h
  have h0 : (groq_transcribe_file fs_empty (.success "hi") call_missing).1 =
      Except.ok (none : Option TranscriptionResult) := by decide
  rw [h0] at h
  exact Except.noConfusion h

/-- C1 (amended): for every provider, a `transcribe_file` call on a
non-existent file raises nothing: the provider fires the
failed-notification with the file-not-found message and returns `None`;
consequently the facade records nothing, invokes no fallback, and returns
null. -/
theorem file_not_found_swallowed :
    (∀ (fs : FileSystem) (v : VendorOutcome) (c : PCall), fs c.file_path = none →
      groq_transcribe_file fs v c =
        (.ok none, [.failed ("Audio file not found: " ++ c.file_path)])) ∧
    (∀ (fs : FileSystem) (v : VendorOutcome) (c : PCall), fs c.file_path = none →
      openai_transcribe_file fs v c =
        (.ok none, [.failed ("Audio file not found: " ++ c.file_path)])) ∧
    (∀ (fs : FileSystem) (v : GVendorOutcome) (c : PCall), fs c.file_path = none →
      google_cloud_transcribe_file fs v c =
        (.ok none, [.failed ("Audio file not found: " ++ c.file_path)])) ∧
    (∀ (fs : FileSystem) (v : AaiVendorOutcome) (c : PCall), fs c.file_path = none →
      assemblyai_transcribe_file fs v c =
        (.ok none, [.failed ("Audio file not found: " ++ c.file_path)])) ∧
    (∀ (fs : FileSystem) (v : DgVendorOutcome) (c : PCall), fs c.file_path = none →
      deepgram_transcribe_file fs v c =
        (.ok none, [.failed ("Audio file not found: " ++ c.file_path)])) ∧
    (∀ (primary : PCall → Outcome) (fb : Option (PCall → Outcome)) (st : FacadeState)
        (c : PCall) (m : String), primary c = (.ok none, [.failed m]) →
      (service_transcribe_file primary fb st c).ret = .ok none ∧
      (service_transcribe_file primary fb st c).state = st ∧
      (service_transcribe_file primary fb st c).fallback_calls = 0) := by
  refine ⟨?_, ?_, ?_, ?_, ?_, ?_⟩
  · intro fs v c h
    simp [groq_transcribe_file, validate_file, h, PyExc.py_str]
  · intro fs v c h
    simp [openai_transcribe_file, validate_file, h, PyExc.py_str]
  · intro fs v c h
    simp [google_cloud_transcribe_file, validate_file, h, PyExc.py_str]
  · intro fs v c h
    simp [assemblyai_transcribe_file, validate_file, h, PyExc.py_str]
  · intro fs v c h
    simp [deepgram_transcribe_file, validate_file, h, PyExc.py_str]
  · intro primary fb st c m h
    rw [svc_reject_frame primary fb st c m h]
    exact ⟨rfl, rfl, rfl⟩

/-- C1 witness: concrete instances of each part of
`file_not_found_swallowed`. -/
theorem file_not_found_swallowed_witness :
    fs_empty call_missing.file_path = none ∧
    groq_transcribe_file fs_empty (.success "x") call_missing =
      (.ok none, [.failed ("Audio file not found: " ++ call_missing.file_path)]) ∧
    openai_transcribe_file fs_empty (.success "x") call_missing =
      (.ok none, [.failed ("Audio file not found: " ++ call_missing.file_path)]) ∧
    google_cloud_transcribe_file fs_empty (.response []) call_missing =
      (.ok none, [.failed ("Audio file not found: " ++ call_missing.file_path)]) ∧
    assemblyai_transcribe_file fs_empty (.vendorRaise "x") call_missing =
      (.ok none, [.failed ("Audio file not found: " ++ call_missing.file_path)]) ∧
    deepgram_transcribe_file fs_empty (.vendorRaise "x") call_missing =
      (.ok none, [.failed ("Audio file not found: " ++ call_missing.file_path)]) ∧
    ((service_transcribe_file (fun _ => (.ok none, [.failed "m"])) none {} call_wav).ret =
        .ok none ∧
      (service_transcribe_file (fun _ => (.ok none, [.failed "m"])) none {} call_wav).state =
        {} ∧
      (service_transcribe_file (fun _ => (.ok none, [.failed "m"])) none {}
        call_wav).fallback_calls = 0) :=
  ⟨rfl,
   file_not_found_swallowed.1 fs_empty _ call_missing rfl,
   file_not_found_swallowed.2.1 fs_empty _ call_missing rfl,
   file_not_found_swallowed.2.2.1 fs_empty _ call_missing rfl,
   file_not_found_swallowed.2.2.2.1 fs_empty _ call_missing rfl,
   file_not_found_swallowed.2.2.2.2.1 fs_empty _ call_missing rfl,
   file_not_found_swallowed.2.2.2.2.2 (fun _ => (.ok none, [.failed "m"])) none {} call_wav
     "m" rfl⟩

/-- C2: an `APIKeyError` (non-recoverable) from the primary provider never
invokes the configured fallback (its call count stays zero), records the
authentication error message as `last_error`, and returns null. -/
theorem auth_error_bypasses_fallback (p : ProviderType) (pevs : List ProvEvent)
    (fb : PCall → Outcome) (st0 : FacadeState) (c : PCall) :
    (service_transcribe_file (fun _ => (.error (.apiKeyError p), pevs))
        (some fb) st0 c).fallback_calls = 0 ∧
    (service_transcribe_file (fun _ => (.error (.apiKeyError p), pevs))
        (some fb) st0 c).ret = .ok none ∧
    (service_transcribe_file (fun _ => (.error (.apiKeyError p), pevs))
        (some fb) st0 c).state.last_error = some (PyExc.apiKeyError p).py_str := by
  refine ⟨?_, ?_, ?_⟩ <;>
    simp [service_transcribe_file, PyExc.is_transcription_error, PyExc.recoverable]

/-- C9: whenever pre-network validation rejects the file (missing,
unsupported extension, or oversized), the facade call returns null,
leaves the whole session state exactly as it was, makes no fallback call,
and reports the rejection only through the failed-notification. -/
theorem pre_network_rejection_frame :
    (∀ (fs : FileSystem) (v : VendorOutcome) (c : PCall) (st : FacadeState)
        (fb : Option (PCall → Outcome)) (e : PyExc),
      validate_file groq_capabilities "Groq" fs c.file_path = .error e →
      service_transcribe_file (groq_transcribe_file fs v) fb st c =
        { ret := .ok none, state := st, events := [.failed e.py_str],
          primary_calls := 1, fallback_calls := 0, fb_call := none }) ∧
    (∀ (fs : FileSystem) (v : VendorOutcome) (c : PCall) (st : FacadeState)
        (fb : Option (PCall → Outcome)) (e : PyExc),
      validate_file openai_capabilities "OpenAI" fs c.file_path = .error e →
      service_transcribe_file (openai_transcribe_file fs v) fb st c =
        { ret := .ok none, state := st, events := [.failed e.py_str],
          primary_calls := 1, fallback_calls := 0, fb_call := none }) ∧
    (∀ (fs : FileSystem) (v : GVendorOutcome) (c : PCall) (st : FacadeState)
        (fb : Option (PCall → Outcome)) (e : PyExc),
      validate_file google_cloud_capabilities "Google Cloud" fs c.file_path = .error e →
      service_transcribe_file (google_cloud_transcribe_file fs v) fb st c =
        { ret := .ok none, state := st, events := [.failed e.py_str],
          primary_calls := 1, fallback_calls := 0, fb_call := none }) ∧
    (∀ (fs : FileSystem) (v : AaiVendorOutcome) (c : PCall) (st : FacadeState)
        (fb : Option (PCall → Outcome)) (e : PyExc),
      validate_file assemblyai_capabilities "AssemblyAI" fs c.file_path = .error e →
      service_transcribe_file (assemblyai_transcribe_file fs v) fb st c =
        { ret := .ok none, state := st, events := [.failed e.py_str],
          primary_calls := 1, fallback_calls := 0, fb_call := none }) ∧
    (∀ (fs : FileSystem) (v : DgVendorOutcome) (c : PCall) (st : FacadeState)
        (fb : Option (PCall → Outcome)) (e : PyExc),
      validate_file deepgram_capabilities "Deepgram" fs c.file_path = .error e →
      service_transcribe_file (deepgram_transcribe_file fs v) fb st c =
        { ret := .ok none, state := st, events := [.failed e.py_str],
          primary_calls := 1, fallback_calls := 0, fb_call := none }) := by
  refine ⟨?_, ?_, ?_, ?_, ?_⟩ <;>
    (intro fs v c st fb e h;
     exact svc_reject_frame _ _ _ _ _ (by
       simp [groq_transcribe_file, openai_transcribe_file, google_cloud_transcribe_file,
             assemblyai_transcribe_file, deepgram_transcribe_file, h]))

/-- C9 witness: the frame property at a concrete unsupported-extension
rejection for each provider. -/
theorem pre_network_rejection_frame_witness :
    validate_file groq_capabilities "Groq" fs_empty call_missing.file_path =
      .error (.fileNotFoundError "Audio file not found: missing.wav") ∧
    (service_transcribe_file (groq_transcribe_file fs_empty (.success "x")) none {}
        call_missing =
      { ret := .ok none, state := {},
        events := [.failed (PyExc.fileNotFoundError "Audio file not found: missing.wav").py_str],
        primary_calls := 1, fallback_calls := 0, fb_call := none }) ∧
    (service_transcribe_file (openai_transcribe_file fs_empty (.success "x")) none {}
        call_missing =
      { ret := .ok none, state := {},
        events := [.failed (PyExc.fileNotFoundError "Audio file not found: missing.wav").py_str],
        primary_calls := 1, fallback_calls := 0, fb_call := none }) ∧
    (service_transcribe_file (google_cloud_transcribe_file fs_empty (.response [])) none {}
        call_missing =
      { ret := .ok none, state := {},
        events := [.failed (PyExc.fileNotFoundError "Audio file not found: missing.wav").py_str],
        primary_calls := 1, fallback_calls := 0, fb_call := none }) ∧
    (service_transcribe_file (assemblyai_transcribe_file fs_empty (.vendorRaise "x")) none {}
        call_missing =
      { ret := .ok none, state := {},
        events := [.failed (PyExc.fileNotFoundError "Audio file not found: missing.wav").py_str],
        primary_calls := 1, fallback_calls := 0, fb_call := none }) ∧
    (service_transcribe_file (deepgram_transcribe_file fs_empty (.vendorRaise "x")) none {}
        call_missing =
      { ret := .ok none, state := {},
        events := [.failed (PyExc.fileNotFoundError "Audio file not found: missing.wav").py_str],
        primary_calls := 1, fallback_calls := 0, fb_call := none }) :=
  ⟨rfl,
   pre_network_rejection_frame.1 fs_empty _ call_missing {} none _ rfl,
   pre_network_rejection_frame.2.1 fs_empty _ call_missing {} none _ rfl,
   pre_network_rejection_frame.2.2.1 fs_empty _ call_missing {} none _ rfl,
   pre_network_rejection_frame.2.2.2.1 fs_empty _ call_missing {} none _ rfl,
   pre_network_rejection_frame.2.2.2.2 fs_empty _ call_missing {} none _ rfl⟩

/-- `transcribe_file` always returns a value: every branch of the embedded
facade body ends in `.ok`. -/
theorem svc_ret_ok (primary : PCall → Outcome) (fb : Option (PCall → Outcome))
    (st : FacadeState) (c : PCall) :
    ∃ v, (service_transcribe_file primary fb st c).ret = .ok v := by
  rcases hp : primary c with ⟨res, pevs⟩
  rcases res with e | r
  · by_cases hf : e.is_transcription_error = true
    · rcases fb with _ | fbf
      · exact ⟨none, by simp [service_transcribe_file, hp, hf]⟩
      · by_cases hr : e.recoverable = true
        · rcases hq : fbf { c with model := none, response_format := "text" } with ⟨res2, pevs2⟩
          rcases res2 with e2 | r2
          · exact ⟨none, by simp [service_transcribe_file, try_fallback, hp, hf, hr, hq]⟩
          · rcases r2 with _ | r2
            · exact ⟨none, by simp [service_transcribe_file, try_fallback, hp, hf, hr, hq]⟩
            · exact ⟨some r2.text,
                by simp [service_transcribe_file, try_fallback, hp, hf, hr, hq]⟩
        · exact ⟨none, by simp [service_transcribe_file, hp, hf, hr]⟩
    · exact ⟨none, by simp [service_transcribe_file, hp, hf]⟩
  · rcases r with _ | r
    · exact ⟨none, by simp [service_transcribe_file, hp]⟩
    · exact ⟨some r.text, by simp [service_transcribe_file, hp]⟩

/-- The retry loop always returns a value. -/
theorem retry_aux_ret_ok (primary : PCall → Outcome) (fb : Option (PCall → Outcome))
    (c : PCall) (mr : Nat) (d : ℚ) :
    ∀ (remaining attempt : Nat) (st : FacadeState) (sl : List ℚ) (evs : List ExtEvent)
      (pc fc : Nat),
      ∃ v, (retry_aux primary fb c mr d remaining attempt st sl evs pc fc).ret = .ok v := by
  intro remaining
  induction remaining with
  | zero => intro attempt st sl evs pc fc; exact ⟨none, rfl⟩
  | succ k ih =>
      intro attempt st sl evs pc fc
      simp only [retry_aux]
      split
      · split
        · exact ⟨_, rfl⟩
        · split
          · split
            · apply ih
            · apply ih
          · exact ⟨none, rfl⟩
      · split
        · apply ih
        · exact ⟨none, rfl⟩

/-- C3: with no fallback and a primary that always raises
`RateLimitError`, `transcribe_file_with_retry` with `max_retries = 3` and
`retry_delay = 1.0` makes exactly 3 primary calls, sleeps 1.0 s then
2.0 s, and returns null; and a failure whose recorded message does not
contain `"rate limit"` (case-insensitively) ends the loop after exactly
one attempt with no sleep. -/
theorem rate_limit_retry_behavior :
    (∀ (p : ProviderType) (ra : Option Nat) (pevs : List ProvEvent) (st0 : FacadeState)
        (c : PCall),
      (transcribe_file_with_retry (fun _ => (.error (.rateLimitError p ra), pevs))
          none st0 c 3 1).primary_calls = 3 ∧
      (transcribe_file_with_retry (fun _ => (.error (.rateLimitError p ra), pevs))
          none st0 c 3 1).sleeps = [1, 2] ∧
      (transcribe_file_with_retry (fun _ => (.error (.rateLimitError p ra), pevs))
          none st0 c 3 1).ret = .ok none) ∧
    (∀ (e : PyExc) (pevs : List ProvEvent) (st0 : FacadeState) (c : PCall),
      strContains (pyLower e.py_str) "rate limit" = false →
      (transcribe_file_with_retry (fun _ => (.error e, pevs))
          none st0 c 3 1).primary_calls = 1 ∧
      (transcribe_file_with_retry (fun _ => (.error e, pevs))
          none st0 c 3 1).sleeps = [] ∧
      (transcribe_file_with_retry (fun _ => (.error e, pevs))
          none st0 c 3 1).ret = .ok none) := by
  constructor
  · intro p ra pevs st0 c
    have hmsg := rate_limit_msg_contains p ra
    refine ⟨?_, ?_, ?_⟩ <;>
      simp [transcribe_file_with_retry, retry_aux, service_transcribe_file,
            PyExc.is_transcription_error, hmsg] <;>
      norm_num
  · intro e pevs st0 c h
    cases e <;>
      refine ⟨?_, ?_, ?_⟩ <;>
        simp_all [transcribe_file_with_retry, retry_aux, service_transcribe_file,
                  PyExc.is_transcription_error]

/-- C3 witness: the non-rate-limit conjunct at a concrete generic
error. -/
theorem rate_limit_retry_behavior_witness :
    strContains (pyLower (PyExc.transcriptionError "boom" .groq true).py_str)
      "rate limit" = false ∧
    (transcribe_file_with_retry
        (fun _ => (.error (.transcriptionError "boom" .groq true), []))
        none {} call_wav 3 1).primary_calls = 1 ∧
    (transcribe_file_with_retry
        (fun _ => (.error (.transcriptionError "boom" .groq true), []))
        none {} call_wav 3 1).sleeps = [] ∧
    (transcribe_file_with_retry
        (fun _ => (.error (.transcriptionError "boom" .groq true), []))
        none {} call_wav 3 1).ret = .ok none := by
  refine ⟨by decide, ?_⟩
  exact rate_limit_retry_behavior.2 (.transcriptionError "boom" .groq true) [] {} call_wav
    (by decide)

/-- C4: a generic recoverable `TranscriptionError` from the primary
followed by a succeeding fallback returns the fallback's text, leaves
`get_last_error()` null (the fallback's completed-notification cleared the
recorded primary error), and invokes the fallback without the `model`
argument (and without `response_format`), so the fallback uses its own
defaults. -/
theorem generic_error_fallback_success (msg : String) (p : ProviderType)
    (pevs : List ProvEvent) (st0 : FacadeState) (c : PCall) (fb : PCall → Outcome)
    (r : TranscriptionResult)
    (hfb : fb { c with model := none, response_format := "text" } =
      (.ok (some r), [.started, .completed r])) :
    (service_transcribe_file (fun _ => (.error (.transcriptionError msg p true), pevs))
        (some fb) st0 c).ret = .ok (some r.text) ∧
    (service_transcribe_file (fun _ => (.error (.transcriptionError msg p true), pevs))
        (some fb) st0 c).state.last_error = none ∧
    (service_transcribe_file (fun _ => (.error (.transcriptionError msg p true), pevs))
        (some fb) st0 c).state.last_transcription = some r.text ∧
    (service_transcribe_file (fun _ => (.error (.transcriptionError msg p true), pevs))
        (some fb) st0 c).fb_call = some { c with model := none, response_format := "text" } := by
  refine ⟨?_, ?_, ?_, ?_⟩ <;>
    simp [service_transcribe_file, try_fallback, PyExc.is_transcription_error,
          PyExc.recoverable, hfb, apply_events, apply_event]

/-- C4 witness: the property at a concrete call with the `"hello"`
fallback. -/
theorem generic_error_fallback_success_witness :
    ok_fallback { call_wav with model := none, response_format := "text" } =
      (.ok (some hello_result), [.started, .completed hello_result]) ∧
    ((service_transcribe_file
        (fun _ => (.error (.transcriptionError "boom" .groq true), [.started, .failed "boom"]))
        (some ok_fallback) {} call_wav).ret = .ok (some hello_result.text) ∧
      (service_transcribe_file
        (fun _ => (.error (.transcriptionError "boom" .groq true), [.started, .failed "boom"]))
        (some ok_fallback) {} call_wav).state.last_error = none ∧
      (service_transcribe_file
        (fun _ => (.error (.transcriptionError "boom" .groq true), [.started, .failed "boom"]))
        (some ok_fallback) {} call_wav).state.last_transcription = some hello_result.text ∧
      (service_transcribe_file
        (fun _ => (.error (.transcriptionError "boom" .groq true), [.started, .failed "boom"]))
        (some ok_fallback) {} call_wav).fb_call =
          some { call_wav with model := none, response_format := "text" }) :=
  ⟨rfl, generic_error_fallback_success "boom" .groq [.started, .failed "boom"] {} call_wav
    ok_fallback hello_result rfl⟩

/-- C5 counterexample: a concrete run where the primary raises a generic
recoverable error and the configured fallback succeeds with `"hello"`:
the facade call returns `"hello"`, not null, and afterwards `last_error`
is `None`, not the recorded error string — so not every provider
exception is "recorded as the last_error string and converted to a null
return value". -/
theorem exception_not_always_null_counterexample :
    (service_transcribe_file
        (fun _ => (.error (.transcriptionError "primary boom" .groq true),
                   [.started, .failed "primary boom"]))
        (some ok_fallback) {} call_wav).ret = .ok (some "hello") ∧
    (service_transcribe_file
        (fun _ => (.error (.transcriptionError "primary boom" .groq true),
                   [.started, .failed "primary boom"]))
        (some ok_fallback) {} call_wav).state.last_error = none := by
  constructor <;> rfl

/-- C5 (amended): the facade never lets any provider exception escape —
`transcribe_file` and `transcribe_file_with_retry` always return a value
— and when the primary raises, either the call returns null with some
error string recorded in `last_error`, or a configured fallback succeeded
and its text is returned (with `last_error` cleared by the fallback's
completed-notification). -/
theorem facade_never_raises :
    (∀ (primary : PCall → Outcome) (fb : Option (PCall → Outcome)) (st : FacadeState)
        (c : PCall), ∃ v, (service_transcribe_file primary fb st c).ret = .ok v) ∧
    (∀ (primary : PCall → Outcome) (fb : Option (PCall → Outcome)) (st : FacadeState)
        (c : PCall) (n : Nat) (d : ℚ),
      ∃ v, (transcribe_file_with_retry primary fb st c n d).ret = .ok v) ∧
    (∀ (primary : PCall → Outcome) (fbf : PCall → Outcome) (st : FacadeState) (c : PCall)
        (e : PyExc) (pevs : List ProvEvent),
      WFBehavior fbf → primary c = (.error e, pevs) →
      ((service_transcribe_file primary (some fbf) st c).ret = .ok none ∧
        (service_transcribe_file primary (some fbf) st c).state.last_error ≠ none) ∨
      (∃ t, (service_transcribe_file primary (some fbf) st c).ret = .ok (some t))) ∧
    (∀ (primary : PCall → Outcome) (st : FacadeState) (c : PCall)
        (e : PyExc) (pevs : List ProvEvent),
      primary c = (.error e, pevs) →
      (service_transcribe_file primary none st c).ret = .ok none ∧
      (service_transcribe_file primary none st c).state.last_error ≠ none) := by
  refine ⟨svc_ret_ok, ?_, ?_, ?_⟩
  · intro primary fb st c n d
    exact retry_aux_ret_ok primary fb c n d n 0 st [] [] 0 0
  · intro primary fbf st c e pevs hwf hp
    by_cases hf : e.is_transcription_error = true
    · by_cases hr : e.recoverable = true
      · rcases hq : fbf { c with model := none, response_format := "text" } with ⟨res2, pevs2⟩
        rcases res2 with e2 | r2
        · left
          constructor
          · simp [service_transcribe_file, try_fallback, hp, hf, hr, hq]
          · simp [service_transcribe_file, try_fallback, hp, hf, hr, hq]
        · rcases r2 with _ | r2
          · left
            have hnc : ∀ r, ProvEvent.completed r ∉ pevs2 := by
              intro r hmem
              have := hwf { c with model := none, response_format := "text" } r
                (by rw [hq]; exact hmem)
              rw [hq] at this
              exact Option.noConfusion (Except.ok.inj this)
            constructor
            · simp [service_transcribe_file, try_fallback, hp, hf, hr, hq]
            · simp only [service_transcribe_file, try_fallback, hp, hf, hr, hq]
              simp [apply_events_no_completed _ pevs2 hnc]
          · right
            exact ⟨r2.text, by simp [service_transcribe_file, try_fallback, hp, hf, hr, hq]⟩
      · left
        constructor <;> simp [service_transcribe_file, hp, hf, hr]
    · left
      constructor <;> simp [service_transcribe_file, hp, hf]
  · intro primary st c e pevs hp
    by_cases hf : e.is_transcription_error = true
    · constructor <;> simp [service_transcribe_file, hp, hf]
    · constructor <;> simp [service_transcribe_file, hp, hf]

/-- C5 witness: the amended property at a concrete unclassified
exception with the `"hello"` fallback configured, plus retry totality at
a concrete call. -/
theorem facade_never_raises_witness :
    WFBehavior ok_fallback ∧
    ((((service_transcribe_file (fun _ => (.error (.otherError "x"), []))
          (some ok_fallback) {} call_wav).ret = .ok none ∧
        (service_transcribe_file (fun _ => (.error (.otherError "x"), []))
          (some ok_fallback) {} call_wav).state.last_error ≠ none) ∨
      (∃ t, (service_transcribe_file (fun _ => (.error (.otherError "x"), []))
          (some ok_fallback) {} call_wav).ret = .ok (some t))) ∧
    (∃ v, (transcribe_file_with_retry (fun _ => (.error (.otherError "x"), []))
        none {} call_wav 3 1).ret = .ok v)) := by
  have hwf : WFBehavior ok_fallback := by
    intro c r hr
    simp [ok_fallback] at hr
    subst hr
    rfl
  exact ⟨hwf,
    facade_never_raises.2.2.1 (fun _ => (.error (.otherError "x"), [])) ok_fallback {}
      call_wav (.otherError "x") [] hwf rfl,
    facade_never_raises.2.1 (fun _ => (.error (.otherError "x"), [])) none {} call_wav 3 1⟩

theorem strContains_self (s : String) : strContains s s = true := by
  unfold strContains
  rw [decide_eq_true_iff]

theorem strContains_append_right (x y pat : String) (h : strContains y pat = true) :
    strContains (x ++ y) pat = true := by
  unfold strContains at h ⊢
  rw [decide_eq_true_iff] at h ⊢
  rw [string_data_append]
  rcases h with ⟨s, t, hst⟩
  exact ⟨x.data ++ s, t, by rw [← hst]; simp⟩

/-- Every member of a joined list occurs as a substring of the join. -/
theorem strContains_pyJoin (sep : String) (l : List String) (s : String) (h : s ∈ l) :
    strContains (pyJoin sep l) s = true := by
  induction l with
  | nil => cases h
  | cons a rest ih =>
      cases rest with
      | nil =>
          rcases List.mem_singleton.mp h with rfl
          exact strContains_self s
      | cons b t =>
          rcases List.mem_cons.mp h with rfl | hmem
          · exact strContains_append_left _ _ _ (strContains_append_left _ _ _
              (strContains_self s))
          · exact strContains_append_right _ _ _ (ih hmem)

/-- Validation succeeds on the small `a.wav` of `fs_one` for any provider
that supports the `wav` format and allows at least 1 MB. -/
theorem validate_fs_one_ok (caps : ProviderCapabilities) (name : String)
    (hfmt : caps.supported_formats.contains "wav" = true)
    (hmax : 1 ≤ caps.max_file_size_mb) :
    validate_file caps name fs_one "a.wav" = .ok true := by
  have h1 : (1000 : ℚ) / (1024 * 1024) < 1 := by norm_num
  have h2 : (1 : ℚ) ≤ (caps.max_file_size_mb : ℚ) := by exact_mod_cast hmax
  have hle : ¬ ((caps.max_file_size_mb : ℚ) < (1000 : ℚ) / (1024 * 1024)) :=
    not_lt.mpr (le_of_lt (lt_of_lt_of_le h1 h2))
  have hmem : "wav" ∈ caps.supported_formats := by simpa using hfmt
  simp [validate_file, fs_one, show file_ext "a.wav" = "wav" from rfl, hmem, hle]

/-- C6: the Google Cloud provider's language handling: omitted language
becomes `"en-US"`; the nine table entries map to their region-qualified
codes; every other two-letter code `c` maps to `c ++ "-" ++ upper(c)`;
and `transcribe_file` uses the mapped code (visible in the returned
result's `language` field). -/
theorem google_cloud_language_mapping :
    google_cloud_map_language none = "en-US" ∧
    (google_cloud_map_language (some "en") = "en-US" ∧
      google_cloud_map_language (some "pt") = "pt-BR" ∧
      google_cloud_map_language (some "es") = "es-ES" ∧
      google_cloud_map_language (some "fr") = "fr-FR" ∧
      google_cloud_map_language (some "de") = "de-DE" ∧
      google_cloud_map_language (some "it") = "it-IT" ∧
      google_cloud_map_language (some "ja") = "ja-JP" ∧
      google_cloud_map_language (some "ko") = "ko-KR" ∧
      google_cloud_map_language (some "zh") = "zh-CN") ∧
    (∀ s : String, s.length = 2 → List.lookup s google_language_map = none →
      google_cloud_map_language (some s) = s ++ "-" ++ pyUpper s) ∧
    (∀ (fs : FileSystem) (c : PCall),
      validate_file google_cloud_capabilities "Google Cloud" fs c.file_path = .ok true →
      (google_cloud_transcribe_file fs (.response []) c).1 =
        .ok (some { text := "", provider := .google_cloud,
                    model := pyStrOr c.model "chirp_2",
                    language := some (google_cloud_map_language c.language) })) := by
  refine ⟨by decide, by decide, ?_, ?_⟩
  · intro s h1 h2
    have hs : s ≠ "" := by
      intro he
      rw [he] at h1
      exact absurd h1 (by decide)
    simp [google_cloud_map_language, hs, h1, h2]
  · intro fs c h
    simp [google_cloud_transcribe_file, h]

/-- C6 witness: concrete instances, including the unknown-code rule at
`"nl"` and the use of the mapped code in a concrete call. -/
theorem google_cloud_language_mapping_witness :
    ("nl" : String).length = 2 ∧ List.lookup "nl" google_language_map = none ∧
    google_cloud_map_language (some "nl") = "nl" ++ "-" ++ pyUpper "nl" ∧
    validate_file google_cloud_capabilities "Google Cloud" fs_one call_wav.file_path =
      .ok true ∧
    (google_cloud_transcribe_file fs_one (.response []) call_wav).1 =
      .ok (some { text := "", provider := .google_cloud,
                  model := pyStrOr call_wav.model "chirp_2",
                  language := some (google_cloud_map_language call_wav.language) }) :=
  ⟨by decide, by decide,
   google_cloud_language_mapping.2.2.1 "nl" (by decide) (by decide),
   validate_fs_one_ok google_cloud_capabilities "Google Cloud" (by decide) (by decide),
   google_cloud_language_mapping.2.2.2 fs_one call_wav
     (validate_fs_one_ok google_cloud_capabilities "Google Cloud" (by decide) (by decide))⟩

/-- C7: with `model = None`, a successful transcription on each of the
five providers records that provider's documented default model id in the
returned `TranscriptionResult.model` field (Groq
`whisper-large-v3-turbo`, OpenAI `whisper-1`, Google Cloud `chirp_2`,
AssemblyAI `best`, Deepgram `nova-2`). -/
theorem default_model_ids :
    (∀ (fs : FileSystem) (t : String) (c : PCall),
      validate_file groq_capabilities "Groq" fs c.file_path = .ok true → c.model = none →
      result_model (groq_transcribe_file fs (.success t) c) =
        some "whisper-large-v3-turbo") ∧
    (∀ (fs : FileSystem) (t : String) (c : PCall),
      validate_file openai_capabilities "OpenAI" fs c.file_path = .ok true →
      c.model = none →
      result_model (openai_transcribe_file fs (.success t) c) = some "whisper-1") ∧
    (∀ (fs : FileSystem) (results : List GResult) (c : PCall),
      validate_file google_cloud_capabilities "Google Cloud" fs c.file_path = .ok true →
      c.model = none →
      result_model (google_cloud_transcribe_file fs (.response results) c) =
        some "chirp_2") ∧
    (∀ (fs : FileSystem) (err t : String) (lang : Option String) (dur conf : Option ℚ)
        (words : List AaiWord) (c : PCall),
      validate_file assemblyai_capabilities "AssemblyAI" fs c.file_path = .ok true →
      c.model = none →
      result_model (assemblyai_transcribe_file fs
        (.transcript false err t lang dur conf words) c) = some "best") ∧
    (∀ (fs : FileSystem) (ch : DgChannel) (chs : List DgChannel)
        (md : Option (Option ℚ)) (c : PCall),
      validate_file deepgram_capabilities "Deepgram" fs c.file_path = .ok true →
      c.model = none → ch.alternatives ≠ [] →
      result_model (deepgram_transcribe_file fs (.response (ch :: chs) md) c) =
        some "nova-2") := by
  refine ⟨?_, ?_, ?_, ?_, ?_⟩
  · intro fs t c h hm
    simp [result_model, groq_transcribe_file, h, hm, pyStrOr]
  · intro fs t c h hm
    simp [result_model, openai_transcribe_file, h, hm, pyStrOr]
  · intro fs results c h hm
    cases results with
    | nil => simp [result_model, google_cloud_transcribe_file, h, hm, pyStrOr]
    | cons a l => simp [result_model, google_cloud_transcribe_file, h, hm, pyStrOr]
  · intro fs err t lang dur conf words c h hm
    simp [result_model, assemblyai_transcribe_file, h, hm, pyStrOr]
  · intro fs ch chs md c h hm hne
    obtain ⟨alt, rest, hca⟩ := List.exists_cons_of_ne_nil hne
    simp [result_model, deepgram_transcribe_file, h, hm, hca, pyStrOr]

/-- C7 witness: the default model on a concrete successful call to each
provider. -/
theorem default_model_ids_witness :
    call_wav.model = none ∧
    result_model (groq_transcribe_file fs_one (.success "hi") call_wav) =
      some "whisper-large-v3-turbo" ∧
    result_model (openai_transcribe_file fs_one (.success "hi") call_wav) =
      some "whisper-1" ∧
    result_model (google_cloud_transcribe_file fs_one
      (.response [{ alternatives := [{ transcript := "hi", confidence := 1, words := [] }] }])
      call_wav) = some "chirp_2" ∧
    result_model (assemblyai_transcribe_file fs_one
      (.transcript false "" "hi" none none none []) call_wav) = some "best" ∧
    result_model (deepgram_transcribe_file fs_one
      (.response [{ alternatives := [{ transcript := "hi", confidence := 1, words := [] }],
                    detected_language := none }] none) call_wav) = some "nova-2" :=
  ⟨rfl,
   default_model_ids.1 fs_one "hi" call_wav
     (validate_fs_one_ok groq_capabilities "Groq" (by decide) (by decide)) rfl,
   default_model_ids.2.1 fs_one "hi" call_wav
     (validate_fs_one_ok openai_capabilities "OpenAI" (by decide) (by decide)) rfl,
   default_model_ids.2.2.1 fs_one
     [{ alternatives := [{ transcript := "hi", confidence := 1, words := [] }] }] call_wav
     (validate_fs_one_ok google_cloud_capabilities "Google Cloud" (by decide) (by decide))
     rfl,
   default_model_ids.2.2.2.1 fs_one "" "hi" none none none [] call_wav
     (validate_fs_one_ok assemblyai_capabilities "AssemblyAI" (by decide) (by decide)) rfl,
   default_model_ids.2.2.2.2 fs_one
     { alternatives := [{ transcript := "hi", confidence := 1, words := [] }],
       detected_language := none } [] none call_wav
     (validate_fs_one_ok deepgram_capabilities "Deepgram" (by decide) (by decide)) rfl
     (by decide)⟩

/-- C8: `create_provider` on an unregistered identity raises a
`ValueError` whose message lists every registered identity (it embeds the
joined list of all registered identity values, and each registered value
occurs in the message); on a registered identity with a non-empty
credential it returns an instance of the registered class holding that
credential. -/
theorem create_provider_spec :
    (∀ (reg : Registry) (pt : ProviderType) (key : String),
      List.lookup pt reg = none →
      create_provider reg pt key = .error (.valueError ("Provider \x27" ++ pt.value ++
          "\x27 is not registered. Available providers: " ++
          pyJoin ", " (reg.map (fun q => q.1.value)))) ∧
      ∀ q ∈ reg, strContains ("Provider \x27" ++ pt.value ++
          "\x27 is not registered. Available providers: " ++
          pyJoin ", " (reg.map (fun q => q.1.value))) q.1.value = true) ∧
    (∀ (reg : Registry) (pt : ProviderType) (cls : ProviderClassTag) (key : String),
      List.lookup pt reg = some cls → key ≠ "" →
      create_provider reg pt key = .ok { cls := cls, api_key := key }) := by
  constructor
  · intro reg pt key h
    constructor
    · simp [create_provider, h]
    · intro q hq
      exact strContains_append_right _ _ _
        (strContains_pyJoin ", " _ _ (List.mem_map_of_mem (fun q => q.1.value) hq))
  · intro reg pt cls key h hk
    simp [create_provider, h, hk]

/-- C8 witness: a one-entry registry rejecting `openai` with the message
listing `groq`, and constructing a Groq instance from `groq`. -/
theorem create_provider_spec_witness :
    List.lookup ProviderType.openai [(ProviderType.groq, ProviderClassTag.groq_cls)] =
      none ∧
    (create_provider [(ProviderType.groq, ProviderClassTag.groq_cls)] .openai "k" =
        .error (.valueError ("Provider \x27" ++ ProviderType.openai.value ++
          "\x27 is not registered. Available providers: " ++
          pyJoin ", " ([(ProviderType.groq, ProviderClassTag.groq_cls)].map
            (fun q => q.1.value)))) ∧
      ∀ q ∈ [(ProviderType.groq, ProviderClassTag.groq_cls)],
        strContains ("Provider \x27" ++ ProviderType.openai.value ++
          "\x27 is not registered. Available providers: " ++
          pyJoin ", " ([(ProviderType.groq, ProviderClassTag.groq_cls)].map
            (fun q => q.1.value))) q.1.value = true) ∧
    create_provider default_registry .groq "k" =
      .ok { cls := ProviderClassTag.groq_cls, api_key := "k" } :=
  ⟨rfl,
   create_provider_spec.1 [(ProviderType.groq, ProviderClassTag.groq_cls)] .openai "k" rfl,
   create_provider_spec.2 default_registry .groq ProviderClassTag.groq_cls "k" rfl
     (by decide)⟩

/-- C10: when the Google Cloud vendor call returns no results, the
provider fires the failed-notification and yet returns a success-shaped
`TranscriptionResult` with empty text instead of raising, and the facade
consequently returns the empty string rather than null. -/
theorem google_empty_results_empty_string (fs : FileSystem) (c : PCall) (st : FacadeState)
    (fb : Option (PCall → Outcome))
    (h : validate_file google_cloud_capabilities "Google Cloud" fs c.file_path = .ok true) :
    google_cloud_transcribe_file fs (.response []) c =
      (.ok (some { text := "", provider := .google_cloud,
                   model := pyStrOr c.model "chirp_2",
                   language := some (google_cloud_map_language c.language) }),
       [.started, .failed "Google Cloud returned empty results"]) ∧
    (service_transcribe_file (google_cloud_transcribe_file fs (.response [])) fb st c).ret =
      .ok (some "") := by
  constructor
  · simp [google_cloud_transcribe_file, h]
  · simp [service_transcribe_file, google_cloud_transcribe_file, h,
          apply_events, apply_event]

/-- C10 witness: the empty-results behaviour at a concrete call. -/
theorem google_empty_results_empty_string_witness :
    validate_file google_cloud_capabilities "Google Cloud" fs_one call_wav.file_path =
      .ok true ∧
    (google_cloud_transcribe_file fs_one (.response []) call_wav =
      (.ok (some { text := "", provider := .google_cloud,
                   model := pyStrOr call_wav.model "chirp_2",
                   language := some (google_cloud_map_language call_wav.language) }),
       [.started, .failed "Google Cloud returned empty results"]) ∧
     (service_transcribe_file (google_cloud_transcribe_file fs_one (.response [])) none {}
        call_wav).ret = .ok (some "")) :=
  ⟨validate_fs_one_ok google_cloud_capabilities "Google Cloud" (by decide) (by decide),
   google_empty_results_empty_string fs_one call_wav {} none
     (validate_fs_one_ok google_cloud_capabilities "Google Cloud" (by decide) (by decide))⟩
